import Mathlib

/-!
Shallow embedding of the pre-trade risk-and-throttle gate of this repository:
`src/attached_assets/rules_gate_1759126614408.py` (trading windows, per-window
trade throttle, protected-symbol policy) and
`src/attached_assets/orders_1759126614408.py` (kill switch, position-size
limit, offline bypass, dry-run/live order dispatch).

Python time-of-day values are embedded as minutes since midnight (`Nat`);
Python's `time` ordering is order-isomorphic to this on the values the code
uses.  The module-level mutable dict `_window_trades` is passed explicitly as
an association list.  Calls to the external `risk`/`client` collaborators
(`check_risk_limits`, `enforce_limits`, `api_post`) are recorded in an
explicit effect trace, and the result of `check_risk_limits()` is an input.
`place_equity_market`'s `raise RuntimeError` is embedded as `Except.error`.
-/

namespace RulesGate

/-- Minutes since midnight for a Python `time(h, m)` literal. -/
def timeOfDay (h m : Nat) : Nat := h * 60 + m

/-- `TRADE_WINDOWS = [(time(6,30), time(7,30)), (time(12,0), time(13,0))]`. -/
def TRADE_WINDOWS : List (Nat × Nat) :=
  [(timeOfDay 6 30, timeOfDay 7 30), (timeOfDay 12 0, timeOfDay 13 0)]

/-- `MAX_TRADES_PER_WINDOW = 2`. -/
def MAX_TRADES_PER_WINDOW : Nat := 2

/-- `PROTECTED_NEVER_SELL = {"CWH"}`. -/
def PROTECTED_NEVER_SELL : List String := ["CWH"]

/-- Python `str.upper()` (per-character ASCII uppercase, which is all the
symbols here use). -/
def pyUpper (s : String) : String := ⟨s.data.map Char.toUpper⟩

/-- A Python `datetime` restricted to what the gate reads: the ISO date
string (`dt.date().isoformat()`) and the time of day in minutes. -/
structure PyDateTime where
  date : String
  time : Nat
deriving DecidableEq

/-- The module-level dict `_window_trades : {(date, idx): count}`. -/
def WindowTrades := List ((String × Nat) × Nat)

/-- Python `d.get(k, 0)`. -/
def dictGet (m : WindowTrades) (k : String × Nat) : Nat :=
  match List.find? (fun e => decide (e.1 = k)) m with
  | some e => e.2
  | none => 0

/-- Python `d[k] = v` (observationally: later binding shadows earlier). -/
def dictSet (m : WindowTrades) (k : String × Nat) (v : Nat) : WindowTrades :=
  (k, v) :: m

/-- `in_window(now)`: `any(start <= now <= end for start, end in TRADE_WINDOWS)`. -/
def in_window (now : Nat) : Bool :=
  TRADE_WINDOWS.any fun w => decide (w.1 ≤ now ∧ now ≤ w.2)

/-- The `enumerate` loop body of `window_key`: first window containing `t`. -/
def window_key_aux (t : Nat) : Nat → List (Nat × Nat) → Option Nat
  | _, [] => none
  | idx, w :: ws =>
    if w.1 ≤ t ∧ t ≤ w.2 then some idx else window_key_aux t (idx + 1) ws

/-- `window_key(dt)`: `(dt.date().isoformat(), idx)` of the first window
containing `dt.time()`, else `None`. -/
def window_key (dt : PyDateTime) : Option (String × Nat) :=
  (window_key_aux dt.time 0 TRADE_WINDOWS).map fun idx => (dt.date, idx)

/-- `allow_order(symbol, side)`, with the implicit current datetime and the
module-level `_window_trades` dict passed explicitly. -/
def allow_order (symbol side : String) (dt : PyDateTime) (trades : WindowTrades) :
    Bool × String :=
  if !(in_window dt.time) then (false, "outside_playbook_window")
  else if side == "Sell" && PROTECTED_NEVER_SELL.contains (pyUpper symbol) then
    (false, "protected_ticker_never_sell")
  else
    match window_key dt with
    | some wk =>
      let count := dictGet trades wk
      if count ≥ MAX_TRADES_PER_WINDOW then (false, "max_trades_this_window")
      else (true, "")
    | none => (true, "")

/-- `record_order()`: increments `_window_trades[window_key()]` when a window
matches; no-op otherwise. -/
def record_order (dt : PyDateTime) (trades : WindowTrades) : WindowTrades :=
  match window_key dt with
  | some wk => dictSet trades wk (dictGet trades wk + 1)
  | none => trades

end RulesGate

namespace Orders

/-- The `config` values `orders.py` imports (`ACCOUNT_ID`, `MAX_POS_SIZE`,
`KILL_SWITCH`, `AUTO_LIQUIDATE`, `DRY_RUN`, `OFFLINE_MODE`). -/
structure Config where
  ACCOUNT_ID : String
  MAX_POS_SIZE : Int
  KILL_SWITCH : Bool
  AUTO_LIQUIDATE : Bool
  DRY_RUN : Bool
  OFFLINE_MODE : Bool
deriving DecidableEq

/-- The `instrument` sub-dict of the order payload. -/
structure Instrument where
  symbol : String
  assetType : String
deriving DecidableEq

/-- The payload dict built by `place_equity_market` — exactly these keys. -/
structure Payload where
  accountId : String
  orderType : String
  instrument : Instrument
  quantity : Nat
  instruction : String
deriving DecidableEq

/-- Calls made to the external `risk`/`client` collaborators, in order. -/
inductive Effect where
  | checkRiskLimits
  | enforceLimits (auto_liquidate : Bool)
  | apiPost (path : String) (body : Payload)
deriving DecidableEq

/-- `risk_ok(symbol, qty)`.  The external `check_risk_limits()` result
`(ok, reasons)` is an input `brokerCheck`; the trace records which external
calls the run makes.  The function returns only a `Bool` — it logs, but
returns no reason string. -/
def risk_ok (cfg : Config) (symbol : String) (qty : Int)
    (brokerCheck : Bool × List String) : Bool × List Effect :=
  if cfg.KILL_SWITCH then (false, [])
  else if |qty| > cfg.MAX_POS_SIZE then (false, [])
  else if cfg.OFFLINE_MODE then (true, [])
  else if brokerCheck.1 then (true, [Effect.checkRiskLimits])
  else if cfg.AUTO_LIQUIDATE then
    (false, [Effect.checkRiskLimits, Effect.enforceLimits true])
  else (false, [Effect.checkRiskLimits])

/-- The outcome of an order dispatch. -/
inductive OrderOutcome where
  | simulated (payload : Payload)
  | posted (path : String) (payload : Payload)
deriving DecidableEq

/-- `_simulate_order(payload)`: returns `{"status":"simulated","payload":payload}`
(the log call is I/O only). -/
def simulate_order (payload : Payload) : OrderOutcome := .simulated payload

/-- The payload literal of `place_equity_market` (lines 36–42). -/
def order_payload (cfg : Config) (symbol : String) (qty : Int) : Payload :=
  { accountId := cfg.ACCOUNT_ID
    orderType := "Market"
    instrument := { symbol := symbol, assetType := "EQ" }
    quantity := qty.natAbs
    instruction := if qty > 0 then "Buy" else "Sell" }

/-- `place_equity_market(symbol, qty)`.  The `raise RuntimeError(...)` on a
failed risk check is embedded as `Except.error` with the exception's message;
a live dispatch appends the `api_post` call to the trace. -/
def place_equity_market (cfg : Config) (symbol : String) (qty : Int)
    (brokerCheck : Bool × List String) : Except String OrderOutcome × List Effect :=
  let r := risk_ok cfg symbol qty brokerCheck
  if !r.1 then (.error "Risk check failed - order blocked", r.2)
  else
    let payload := order_payload cfg symbol qty
    if cfg.DRY_RUN then (.ok (simulate_order payload), r.2)
    else (.ok (.posted "/v1/accounts/orders" payload),
          r.2 ++ [Effect.apiPost "/v1/accounts/orders" payload])

/-- Modelled from the spec: `position_size_by_atr` lives in the `risk` module,
which is not in the repository snapshot.  Per §4.5, stop distance =
`atr × stop_atr_multiple`, risk amount = `account_equity × risk_per_trade`,
raw quantity = `floor(risk_amount / stop_distance)`. -/
def position_size_by_atr (account_equity risk_per_trade atr stop_atr_mult : ℚ) : Int :=
  ⌊(account_equity * risk_per_trade) / (atr * stop_atr_mult)⌋

/-- `place_equity_size_by_atr(symbol, ...)`: computes the ATR quantity and
calls `place_equity_market(symbol, qty if qty > 0 else 1)`. -/
def place_equity_size_by_atr (cfg : Config) (symbol : String)
    (account_equity risk_per_trade atr stop_atr_mult : ℚ)
    (brokerCheck : Bool × List String) : Except String OrderOutcome × List Effect :=
  let qty := position_size_by_atr account_equity risk_per_trade atr stop_atr_mult
  place_equity_market cfg symbol (if qty > 0 then qty else 1) brokerCheck

end Orders

section Scratch

example : RulesGate.in_window (RulesGate.timeOfDay 6 45) = true := by decide

example :
    RulesGate.allow_order "CWH" "Sell" ⟨"2025-01-02", RulesGate.timeOfDay 6 45⟩ [] =
      (false, "protected_ticker_never_sell") := by decide

example :
    RulesGate.window_key ⟨"2025-01-02", RulesGate.timeOfDay 12 30⟩ =
      some ("2025-01-02", 1) := by decide

example :
    Orders.risk_ok ⟨"A1", 100, true, false, false, false⟩ "AAPL" 5 (true, []) =
      (false, []) := by decide

example :
    (Orders.place_equity_market ⟨"A1", 100, false, false, true, true⟩ "AAPL" 5
      (true, [])).1 =
      .ok (.simulated ⟨"A1", "Market", ⟨"AAPL", "EQ"⟩, 5, "Buy"⟩) := rfl

example : Orders.position_size_by_atr 100000 0 2 (3/2) = 0 := by
  simp [Orders.position_size_by_atr]

example : Orders.position_size_by_atr 100000 (1/100) 2 (3/2) = 333 := by
  norm_num [Orders.position_size_by_atr]

end Scratch

open RulesGate Orders

/-! ### Supporting lemmas -/

lemma dictGet_nil (k : String × Nat) : dictGet [] k = 0 := rfl

lemma dictGet_set_self (m : WindowTrades) (k : String × Nat) (v : Nat) :
    dictGet (dictSet m k v) k = v := by
  simp [dictGet, dictSet, List.find?]

lemma record_order_eq (dt : PyDateTime) (m : WindowTrades) (wk : String × Nat)
    (hwk : window_key dt = some wk) :
    record_order dt m = dictSet m wk (dictGet m wk + 1) := by
  simp [record_order, hwk]

lemma window_key_aux_isSome (t : Nat) (ws : List (Nat × Nat)) (i : Nat) :
    (window_key_aux t i ws).isSome = ws.any fun w => decide (w.1 ≤ t ∧ t ≤ w.2) := by
  induction ws generalizing i with
  | nil => rfl
  | cons w ws ih =>
    by_cases h : w.1 ≤ t ∧ t ≤ w.2 <;> simp [window_key_aux, h, ih]

lemma in_window_iff_window_key (dt : PyDateTime) :
    in_window dt.time = true ↔ ∃ wk, window_key dt = some wk := by
  unfold in_window window_key
  rw [← window_key_aux_isSome dt.time TRADE_WINDOWS 0]
  cases h : window_key_aux dt.time 0 TRADE_WINDOWS <;> simp [h]

/-- The throttle branch of `allow_order`: inside a window, on a non-protected
(symbol, side), the decision is exactly the cap comparison. -/
lemma allow_order_cap (symbol side : String) (dt : PyDateTime) (trades : WindowTrades)
    (wk : String × Nat)
    (hin : in_window dt.time = true)
    (hwk : window_key dt = some wk)
    (hprot : (side == "Sell" && PROTECTED_NEVER_SELL.contains (pyUpper symbol)) = false) :
    allow_order symbol side dt trades =
      (if dictGet trades wk < MAX_TRADES_PER_WINDOW then (true, "")
       else (false, "max_trades_this_window")) := by
  unfold allow_order
  rw [hin, hwk]
  simp only [Bool.not_true, Bool.false_eq_true, if_false, hprot]
  by_cases hc : dictGet trades wk < MAX_TRADES_PER_WINDOW
  · rw [if_neg (by omega), if_pos hc]
  · rw [if_pos (by omega), if_neg hc]


/-! ### C1 — per-window trade cap -/

/-- C1 (amended): inside a trading window and past the protected-symbol
check, `allow_order` admits iff the bucket's counter is strictly below
`MAX_TRADES_PER_WINDOW`, and otherwise denies with the code's reason string
`"max_trades_this_window"`; with the cap of 2, three sequential
allow/record rounds in the same (date, window) bucket yield two admissions
and then that denial. -/
theorem C1_theorem :
    (∀ (symbol side : String) (dt : PyDateTime) (trades : WindowTrades)
       (wk : String × Nat),
      in_window dt.time = true →
      window_key dt = some wk →
      (side == "Sell" && PROTECTED_NEVER_SELL.contains (pyUpper symbol)) = false →
      (allow_order symbol side dt trades = (true, "") ↔
        dictGet trades wk < MAX_TRADES_PER_WINDOW) ∧
      (¬ dictGet trades wk < MAX_TRADES_PER_WINDOW →
        allow_order symbol side dt trades = (false, "max_trades_this_window"))) ∧
    (∀ dt : PyDateTime,
      in_window dt.time = true →
      allow_order "AAPL" "Buy" dt [] = (true, "") ∧
      allow_order "AAPL" "Buy" dt (record_order dt []) = (true, "") ∧
      allow_order "AAPL" "Buy" dt (record_order dt (record_order dt [])) =
        (false, "max_trades_this_window")) := by
  have hAAPL : (("Buy" == "Sell") &&
      PROTECTED_NEVER_SELL.contains (pyUpper "AAPL")) = false := by decide
  constructor
  · intro symbol side dt trades wk hin hwk hprot
    rw [allow_order_cap symbol side dt trades wk hin hwk hprot]
    by_cases hc : dictGet trades wk < MAX_TRADES_PER_WINDOW
    · simp [hc]
    · simp [hc]
  · intro dt hin
    obtain ⟨wk, hwk⟩ := (in_window_iff_window_key dt).1 hin
    have h0 : dictGet [] wk = 0 := dictGet_nil wk
    have h1 : dictGet (record_order dt []) wk = 1 := by
      rw [record_order_eq dt [] wk hwk, dictGet_set_self, h0]
    have h2 : dictGet (record_order dt (record_order dt [])) wk = 2 := by
      rw [record_order_eq dt (record_order dt []) wk hwk, dictGet_set_self, h1]
    refine ⟨?_, ?_, ?_⟩
    · rw [allow_order_cap "AAPL" "Buy" dt [] wk hin hwk hAAPL, h0]
      decide
    · rw [allow_order_cap "AAPL" "Buy" dt _ wk hin hwk hAAPL, h1]
      decide
    · rw [allow_order_cap "AAPL" "Buy" dt _ wk hin hwk hAAPL, h2]
      decide

/-- C1: witness instantiating the theorem at 06:45 on 2025-01-02 with an
empty counter table. -/
theorem C1_witness :
    (allow_order "AAPL" "Buy" ⟨"2025-01-02", timeOfDay 6 45⟩ [] = (true, "") ↔
      dictGet [] ("2025-01-02", 0) < MAX_TRADES_PER_WINDOW) ∧
    allow_order "AAPL" "Buy" ⟨"2025-01-02", timeOfDay 6 45⟩
        (record_order ⟨"2025-01-02", timeOfDay 6 45⟩
          (record_order ⟨"2025-01-02", timeOfDay 6 45⟩ [])) =
      (false, "max_trades_this_window") :=
  ⟨( C1_theorem.1 "AAPL" "Buy" ⟨"2025-01-02", timeOfDay 6 45⟩ []
      ("2025-01-02", 0) (by decide) (by decide) (by decide)).1,
   ( C1_theorem.2 ⟨"2025-01-02", timeOfDay 6 45⟩ (by decide)).2.2⟩

/-- C1: the code's third-intent denial reason is `"max_trades_this_window"`,
not the claimed `"window_trade_cap_reached"`. -/
theorem C1_counterexample :
    allow_order "MSFT" "Buy" ⟨"2025-03-04", timeOfDay 12 15⟩
        (record_order ⟨"2025-03-04", timeOfDay 12 15⟩
          (record_order ⟨"2025-03-04", timeOfDay 12 15⟩ [])) =
      (false, "max_trades_this_window") ∧
    allow_order "MSFT" "Buy" ⟨"2025-03-04", timeOfDay 12 15⟩ [] = (true, "") ∧
    "max_trades_this_window" ≠ "window_trade_cap_reached" := by
  refine ⟨by decide, by decide, by decide⟩

/-! ### C2 — kill switch -/

/-- C2 (amended): whenever `KILL_SWITCH` is set, `risk_ok` returns `false`
for every symbol, quantity and broker-check result, making no external call;
no reason string is returned (the function's result is a bare boolean), and
`place_equity_market` then surfaces the denial as the raised
`RuntimeError("Risk check failed - order blocked")`. -/
theorem C2_theorem (cfg : Config) (symbol : String) (qty : Int)
    (bc : Bool × List String) (h : cfg.KILL_SWITCH = true) :
    risk_ok cfg symbol qty bc = (false, []) ∧
    place_equity_market cfg symbol qty bc =
      (.error "Risk check failed - order blocked", []) := by
  have hr : risk_ok cfg symbol qty bc = (false, []) := by
    unfold risk_ok
    rw [h]
    simp
  refine ⟨hr, ?_⟩
  unfold place_equity_market
  rw [hr]
  simp

/-- C2: witness at a concrete kill-switch configuration. -/
theorem C2_witness :
    risk_ok ⟨"A1", 100, true, false, false, false⟩ "AAPL" 5 (true, []) =
      (false, []) ∧
    place_equity_market ⟨"A1", 100, true, false, false, false⟩ "AAPL" 5 (true, []) =
      (.error "Risk check failed - order blocked", []) :=
  C2_theorem ⟨"A1", 100, true, false, false, false⟩ "AAPL" 5 (true, []) rfl

/-- C2: under the kill switch the gate does deny, but no reason string
`"kill_switch_active"` is returned anywhere — `risk_ok` yields a bare
`false` and the order path raises `RuntimeError` with a different message. -/
theorem C2_counterexample :
    risk_ok ⟨"ACC9", 50, true, true, true, true⟩ "TSLA" 3 (false, ["b"]) =
      (false, []) ∧
    place_equity_market ⟨"ACC9", 50, true, true, true, true⟩ "TSLA" 3 (false, ["b"]) =
      (.error "Risk check failed - order blocked", []) ∧
    "Risk check failed - order blocked" ≠ "kill_switch_active" :=
  ⟨rfl, rfl, by decide⟩

/-! ### C3 — max position size -/

/-- C3 (amended): any quantity with `|q| > MAX_POS_SIZE` makes `risk_ok`
return `false` (the comparison is strict: with the kill switch off and
`|q| ≤ MAX_POS_SIZE` the size check passes, e.g. the offline path then
admits with `|q| = MAX_POS_SIZE` exactly); no reason string
`"max_position_exceeded"` is returned — the result is a bare boolean. -/
theorem C3_theorem (cfg : Config) (symbol : String) (qty : Int)
    (bc : Bool × List String) :
    (|qty| > cfg.MAX_POS_SIZE → risk_ok cfg symbol qty bc = (false, [])) ∧
    (cfg.KILL_SWITCH = false → cfg.OFFLINE_MODE = true →
      |qty| ≤ cfg.MAX_POS_SIZE → risk_ok cfg symbol qty bc = (true, [])) := by
  constructor
  · intro hgt
    unfold risk_ok
    by_cases hk : cfg.KILL_SWITCH <;> simp [hk, hgt]
  · intro hk hoff hle
    unfold risk_ok
    rw [hk]
    simp only [Bool.false_eq_true, if_false]
    rw [if_neg (by omega), if_pos (by rw [hoff])]

/-- C3: witness — quantity 101 against cap 100 is denied; quantity exactly
100 passes the size check and is admitted on the offline path. -/
theorem C3_witness :
    risk_ok ⟨"A1", 100, false, false, false, true⟩ "AAPL" 101 (true, []) =
      (false, []) ∧
    risk_ok ⟨"A1", 100, false, false, false, true⟩ "AAPL" (-100) (true, []) =
      (true, []) :=
  ⟨( C3_theorem ⟨"A1", 100, false, false, false, true⟩ "AAPL" 101 (true, [])).1
     (by decide),
   ( C3_theorem ⟨"A1", 100, false, false, false, true⟩ "AAPL" (-100) (true, [])).2
     rfl rfl (by decide)⟩

/-- C3: an oversize quantity is denied, but no reason string
`"max_position_exceeded"` exists in the code — the order path's only
denial message is the `RuntimeError` text. -/
theorem C3_counterexample :
    risk_ok ⟨"A1", 100, false, false, false, true⟩ "NVDA" 101 (true, []) =
      (false, []) ∧
    place_equity_market ⟨"A1", 100, false, false, false, true⟩ "NVDA" 101 (true, []) =
      (.error "Risk check failed - order blocked", []) ∧
    "Risk check failed - order blocked" ≠ "max_position_exceeded" :=
  ⟨rfl, rfl, by decide⟩

/-! ### C4 — protected-symbol policy -/

/-- C4 (amended): inside a trading window, `allow_order` denies with the
code's reason string `"protected_ticker_never_sell"` exactly when side is
`"Sell"` and the upper-cased symbol is in the protected set (the claimed
string `"protected_symbol_no_sell"` does not occur); a Buy intent is never
blocked by this policy, in or out of a window.  Outside every window the
denial reason is `"outside_playbook_window"` even for a protected Sell. -/
theorem C4_theorem :
    (∀ (symbol side : String) (dt : PyDateTime) (trades : WindowTrades),
      in_window dt.time = true →
      (allow_order symbol side dt trades = (false, "protected_ticker_never_sell") ↔
        side = "Sell" ∧ pyUpper symbol ∈ PROTECTED_NEVER_SELL)) ∧
    (∀ (symbol : String) (dt : PyDateTime) (trades : WindowTrades),
      (allow_order symbol "Buy" dt trades).2 ≠ "protected_ticker_never_sell") := by
  constructor
  · intro symbol side dt trades hin
    by_cases hb : (side == "Sell" && PROTECTED_NEVER_SELL.contains (pyUpper symbol)) = true
    · have hrhs : side = "Sell" ∧ pyUpper symbol ∈ PROTECTED_NEVER_SELL := by
        simpa using hb
      unfold allow_order
      rw [hin, if_neg (by simp), if_pos hb]
      simp [hrhs]
    · have hrhs : ¬ (side = "Sell" ∧ pyUpper symbol ∈ PROTECTED_NEVER_SELL) := by
        intro hc
        exact hb (by simpa using hc)
      unfold allow_order
      rw [hin, if_neg (by simp), if_neg hb]
      refine iff_of_false ?_ hrhs
      cases hwk : window_key dt with
      | none => simp
      | some wk =>
        by_cases hc : dictGet trades wk ≥ MAX_TRADES_PER_WINDOW <;> simp [hc]
  · intro symbol dt trades
    unfold allow_order
    by_cases hin : in_window dt.time
    · rw [hin, if_neg (by simp), if_neg (by simp)]
      cases hwk : window_key dt with
      | none => simp
      | some wk =>
        by_cases hc : dictGet trades wk ≥ MAX_TRADES_PER_WINDOW <;> simp [hc]
    · rw [if_pos (by simpa using hin)]
      simp

/-- C4: witness — a lower-case protected symbol sold inside a window is
denied by the policy; a Buy on the protected symbol is not policy-blocked. -/
theorem C4_witness :
    allow_order "cwh" "Sell" ⟨"2025-01-02", timeOfDay 6 45⟩ [] =
      (false, "protected_ticker_never_sell") ∧
    (allow_order "CWH" "Buy" ⟨"2025-01-02", timeOfDay 6 45⟩ []).2 ≠
      "protected_ticker_never_sell" :=
  ⟨( C4_theorem.1 "cwh" "Sell" ⟨"2025-01-02", timeOfDay 6 45⟩ [] (by decide)).mpr
     ⟨rfl, by decide⟩,
   C4_theorem.2 "CWH" ⟨"2025-01-02", timeOfDay 6 45⟩ []⟩

/-- C4: the code's protected-sell reason is `"protected_ticker_never_sell"`,
not the claimed `"protected_symbol_no_sell"`; and outside every window a
protected Sell is denied with the window reason instead. -/
theorem C4_counterexample :
    allow_order "CWH" "Sell" ⟨"2025-01-02", timeOfDay 6 45⟩ [] =
      (false, "protected_ticker_never_sell") ∧
    "protected_ticker_never_sell" ≠ "protected_symbol_no_sell" ∧
    allow_order "CWH" "Sell" ⟨"2025-01-02", timeOfDay 5 0⟩ [] =
      (false, "outside_playbook_window") := by
  refine ⟨by decide, by decide, by decide⟩

/-! ### C5 — denial delivery -/

/-- C5 (amended): `allow_order` does deliver its denials as non-exceptional
`(false, reason)` values with reasons drawn from the code's fixed set, and
`risk_ok` delivers its denials as a bare non-exceptional `false` with no
reason code; but `place_equity_market` converts every `risk_ok` denial
(kill switch, oversize quantity, broker risk breach) into a raised
`RuntimeError("Risk check failed - order blocked")` rather than returning
false to its caller. -/
theorem C5_theorem :
    (∀ (symbol side : String) (dt : PyDateTime) (trades : WindowTrades),
      (allow_order symbol side dt trades).1 = false →
      (allow_order symbol side dt trades).2 ∈
        ["outside_playbook_window", "protected_ticker_never_sell",
         "max_trades_this_window"]) ∧
    (∀ (cfg : Config) (symbol : String) (qty : Int) (bc : Bool × List String),
      (risk_ok cfg symbol qty bc).1 = false →
      (place_equity_market cfg symbol qty bc).1 =
        .error "Risk check failed - order blocked") := by
  constructor
  · intro symbol side dt trades h
    unfold allow_order at h ⊢
    by_cases hin : in_window dt.time
    · rw [hin] at h ⊢
      simp only [Bool.not_true, Bool.false_eq_true, if_false] at h ⊢
      by_cases hb : (side == "Sell" &&
          PROTECTED_NEVER_SELL.contains (pyUpper symbol)) = true
      · rw [if_pos hb]
        simp
      · rw [if_neg hb] at h ⊢
        cases hwk : window_key dt with
        | none =>
          rw [hwk] at h
          simp at h
        | some wk =>
          rw [hwk] at h
          by_cases hc : dictGet trades wk ≥ MAX_TRADES_PER_WINDOW
          · simp [hc]
          · simp [hc] at h
    · rw [if_pos (by simpa using hin)]
      simp
  · intro cfg symbol qty bc h
    unfold place_equity_market
    simp [h]

/-- C5: witness — the allow-side reason of a throttled denial is a plain
return value from the fixed set, and a kill-switch denial is raised by
`place_equity_market` as the embedded `RuntimeError`. -/
theorem C5_witness :
    (allow_order "CWH" "Sell" ⟨"2025-01-02", timeOfDay 6 45⟩ []).2 ∈
      ["outside_playbook_window", "protected_ticker_never_sell",
       "max_trades_this_window"] ∧
    (place_equity_market ⟨"B2", 10, true, false, false, false⟩ "GME" 7
        (true, [])).1 = .error "Risk check failed - order blocked" :=
  ⟨ C5_theorem.1 "CWH" "Sell" ⟨"2025-01-02", timeOfDay 6 45⟩ [] (by decide),
   C5_theorem.2 ⟨"B2", 10, true, false, false, false⟩ "GME" 7 (true, []) rfl⟩

/-- C5: a denying input (kill switch active) is not delivered to the caller
of `place_equity_market` as a false return — it is raised as the exception
`RuntimeError("Risk check failed - order blocked")`, contradicting the
claim that a policy denial is never raised. -/
theorem C5_counterexample :
    (risk_ok ⟨"B2", 10, true, false, false, false⟩ "GME" 7 (true, [])).1 =
      false ∧
    place_equity_market ⟨"B2", 10, true, false, false, false⟩ "GME" 7 (true, []) =
      (.error "Risk check failed - order blocked", []) :=
  ⟨rfl, rfl⟩

/-! ### C6 — dry-run dispatch -/

/-- The `risk_ok` trace never contains an `api_post` call. -/
lemma risk_ok_no_apiPost (cfg : Config) (symbol : String) (qty : Int)
    (bc : Bool × List String) (p : String) (b : Payload) :
    Effect.apiPost p b ∉ (risk_ok cfg symbol qty bc).2 := by
  unfold risk_ok
  by_cases h1 : cfg.KILL_SWITCH = true <;>
    by_cases h2 : |qty| > cfg.MAX_POS_SIZE <;>
    by_cases h3 : cfg.OFFLINE_MODE = true <;>
    by_cases h4 : bc.1 = true <;>
    by_cases h5 : cfg.AUTO_LIQUIDATE = true <;>
    simp [h1, h2, h3, h4, h5]

/-- C6: with `DRY_RUN` set and the risk check passing,
`place_equity_market` returns status `"simulated"` carrying exactly the
built payload, adds no call beyond the risk check's own trace, and in
particular performs no `api_post` dispatch; the result is a pure function
of the input, so identical inputs yield identical payloads. -/
theorem C6_theorem (cfg : Config) (symbol : String) (qty : Int)
    (bc : Bool × List String) (hdry : cfg.DRY_RUN = true)
    (hok : (risk_ok cfg symbol qty bc).1 = true) :
    place_equity_market cfg symbol qty bc =
      (.ok (.simulated (order_payload cfg symbol qty)),
       (risk_ok cfg symbol qty bc).2) ∧
    (∀ (p : String) (b : Payload),
      Effect.apiPost p b ∉ (place_equity_market cfg symbol qty bc).2) := by
  have h1 : place_equity_market cfg symbol qty bc =
      (.ok (.simulated (order_payload cfg symbol qty)),
       (risk_ok cfg symbol qty bc).2) := by
    unfold place_equity_market
    simp [hok, hdry, simulate_order]
  refine ⟨h1, ?_⟩
  intro p b
  rw [h1]
  exact risk_ok_no_apiPost cfg symbol qty bc p b

/-- C6: witness at a concrete dry-run configuration — the simulated result
carries the exact payload and the trace is free of order posts. -/
theorem C6_witness :
    place_equity_market ⟨"A1", 100, false, false, true, true⟩ "AAPL" 5 (true, []) =
      (.ok (.simulated ⟨"A1", "Market", ⟨"AAPL", "EQ"⟩, 5, "Buy"⟩), []) ∧
    Effect.apiPost "/v1/accounts/orders" ⟨"A1", "Market", ⟨"AAPL", "EQ"⟩, 5, "Buy"⟩ ∉
      (place_equity_market ⟨"A1", 100, false, false, true, true⟩ "AAPL" 5
        (true, [])).2 :=
  ⟨( C6_theorem ⟨"A1", 100, false, false, true, true⟩ "AAPL" 5 (true, []) rfl rfl).1,
   ( C6_theorem ⟨"A1", 100, false, false, true, true⟩ "AAPL" 5 (true, []) rfl rfl).2
     "/v1/accounts/orders" ⟨"A1", "Market", ⟨"AAPL", "EQ"⟩, 5, "Buy"⟩⟩

/-! ### C7 — offline bypass -/

/-- With the kill switch off, the quantity within the cap, and
`OFFLINE_MODE` set, `risk_ok` admits with an empty trace. -/
lemma risk_ok_offline (cfg : Config) (symbol : String) (qty : Int)
    (bc : Bool × List String) (hoff : cfg.OFFLINE_MODE = true)
    (hkill : cfg.KILL_SWITCH = false) (hq : |qty| ≤ cfg.MAX_POS_SIZE) :
    risk_ok cfg symbol qty bc = (true, []) := by
  unfold risk_ok
  rw [hkill]
  simp only [Bool.false_eq_true, if_false]
  rw [if_neg (by omega), if_pos (by rw [hoff])]

/-- C7: with `OFFLINE_MODE` set, the kill switch off and the quantity
within `MAX_POS_SIZE`, `risk_ok` admits and its trace is empty — no
`check_risk_limits` (or any other broker) call is made on this path,
whatever the broker check would have answered. -/
theorem C7_theorem (cfg : Config) (symbol : String) (qty : Int)
    (bc : Bool × List String) (hoff : cfg.OFFLINE_MODE = true)
    (hkill : cfg.KILL_SWITCH = false) (hq : |qty| ≤ cfg.MAX_POS_SIZE) :
    risk_ok cfg symbol qty bc = (true, []) ∧
    Effect.checkRiskLimits ∉ (risk_ok cfg symbol qty bc).2 := by
  have h := risk_ok_offline cfg symbol qty bc hoff hkill hq
  refine ⟨h, ?_⟩
  rw [h]
  simp

/-- C7: witness — even against a breached broker check result, the offline
path admits without consulting it. -/
theorem C7_witness :
    risk_ok ⟨"A1", 100, false, false, false, true⟩ "AAPL" 50
        (false, ["breach"]) = (true, []) ∧
    Effect.checkRiskLimits ∉
      (risk_ok ⟨"A1", 100, false, false, false, true⟩ "AAPL" 50
        (false, ["breach"])).2 :=
  C7_theorem ⟨"A1", 100, false, false, false, true⟩ "AAPL" 50 (false, ["breach"])
    rfl rfl (by decide)

/-! ### C8 — ATR sizing fallback -/

/-- C8: when the ATR-computed raw quantity (floor of risk amount over stop
distance, modelled from the spec for the missing `risk` module) is ≤ 0,
`place_equity_size_by_atr` submits the order with the substituted minimum
quantity 1 instead of skipping; when it is positive it is passed through
unchanged.  Under an admitting configuration the substituted order is
actually dispatched (simulated here) with payload quantity 1. -/
theorem C8_theorem (cfg : Config) (symbol : String)
    (account_equity risk_per_trade atr stop_atr_mult : ℚ)
    (bc : Bool × List String) :
    (position_size_by_atr account_equity risk_per_trade atr stop_atr_mult ≤ 0 →
      place_equity_size_by_atr cfg symbol account_equity risk_per_trade atr
          stop_atr_mult bc =
        place_equity_market cfg symbol 1 bc) ∧
    (0 < position_size_by_atr account_equity risk_per_trade atr stop_atr_mult →
      place_equity_size_by_atr cfg symbol account_equity risk_per_trade atr
          stop_atr_mult bc =
        place_equity_market cfg symbol
          (position_size_by_atr account_equity risk_per_trade atr stop_atr_mult)
          bc) ∧
    (position_size_by_atr account_equity risk_per_trade atr stop_atr_mult ≤ 0 →
      cfg.KILL_SWITCH = false → cfg.OFFLINE_MODE = true → cfg.DRY_RUN = true →
      1 ≤ cfg.MAX_POS_SIZE →
      place_equity_size_by_atr cfg symbol account_equity risk_per_trade atr
          stop_atr_mult bc =
        (.ok (.simulated (order_payload cfg symbol 1)), []) ∧
      (order_payload cfg symbol 1).quantity = 1) := by
  have hneg : ∀ hq : position_size_by_atr account_equity risk_per_trade atr
      stop_atr_mult ≤ 0,
      place_equity_size_by_atr cfg symbol account_equity risk_per_trade atr
        stop_atr_mult bc = place_equity_market cfg symbol 1 bc := by
    intro hq
    simp only [place_equity_size_by_atr]
    rw [if_neg (not_lt.mpr hq)]
  refine ⟨hneg, ?_, ?_⟩
  · intro hq
    simp only [place_equity_size_by_atr]
    rw [if_pos hq]
  · intro hq hkill hoff hdry hmax
    have habs : |(1 : Int)| ≤ cfg.MAX_POS_SIZE := by
      rw [abs_one]
      exact hmax
    have hro := risk_ok_offline cfg symbol 1 bc hoff hkill habs
    rw [hneg hq]
    refine ⟨?_, rfl⟩
    unfold place_equity_market
    rw [hro]
    simp [hdry, simulate_order]

/-- C8: witness — with risk fraction 0 the computed quantity is 0, so the
order goes out with quantity 1; with all-ones parameters the computed
quantity 1 is positive and is passed through unchanged. -/
theorem C8_witness :
    place_equity_size_by_atr ⟨"A1", 100, false, false, true, true⟩ "AAPL"
        100000 0 2 (3/2) (true, []) =
      place_equity_market ⟨"A1", 100, false, false, true, true⟩ "AAPL" 1
        (true, []) ∧
    place_equity_size_by_atr ⟨"A1", 100, false, false, true, true⟩ "AAPL"
        1 1 1 1 (true, []) =
      place_equity_market ⟨"A1", 100, false, false, true, true⟩ "AAPL"
        (position_size_by_atr 1 1 1 1) (true, []) :=
  ⟨( C8_theorem ⟨"A1", 100, false, false, true, true⟩ "AAPL" 100000 0 2 (3/2)
      (true, [])).1 (by simp [position_size_by_atr]),
   ( C8_theorem ⟨"A1", 100, false, false, true, true⟩ "AAPL" 1 1 1 1
      (true, [])).2.1 (by simp [position_size_by_atr])⟩

/-! ### C9 — live order dispatch -/

/-- C9 (amended): a live (non-dry-run) order that passes the risk check is
POSTed with a JSON body of exactly the fields `{accountId, orderType:
"Market", instrument: {symbol, assetType: "EQ"}, quantity, instruction}`,
but to the path `"/v1/accounts/orders"` — the account id is carried only in
the body, not in the URL path as the claimed
`/v1/accounts/{accountId}/orders`. -/
theorem C9_theorem (cfg : Config) (symbol : String) (qty : Int)
    (bc : Bool × List String) (hdry : cfg.DRY_RUN = false)
    (hok : (risk_ok cfg symbol qty bc).1 = true) :
    place_equity_market cfg symbol qty bc =
      (.ok (.posted "/v1/accounts/orders" (order_payload cfg symbol qty)),
       (risk_ok cfg symbol qty bc).2 ++
         [Effect.apiPost "/v1/accounts/orders" (order_payload cfg symbol qty)]) ∧
    order_payload cfg symbol qty =
      { accountId := cfg.ACCOUNT_ID
        orderType := "Market"
        instrument := { symbol := symbol, assetType := "EQ" }
        quantity := qty.natAbs
        instruction := if qty > 0 then "Buy" else "Sell" } := by
  refine ⟨?_, rfl⟩
  unfold place_equity_market
  simp [hok, hdry]

/-- C9: witness at a concrete admitting live configuration. -/
theorem C9_witness :
    place_equity_market ⟨"ACC1", 100, false, false, false, true⟩ "AAPL" 5
        (true, []) =
      (.ok (.posted "/v1/accounts/orders" ⟨"ACC1", "Market", ⟨"AAPL", "EQ"⟩, 5, "Buy"⟩),
       [Effect.apiPost "/v1/accounts/orders"
          ⟨"ACC1", "Market", ⟨"AAPL", "EQ"⟩, 5, "Buy"⟩]) :=
  ( C9_theorem ⟨"ACC1", 100, false, false, false, true⟩ "AAPL" 5 (true, [])
    rfl rfl).1

/-- C9: the live dispatch posts to `"/v1/accounts/orders"`, which is not the
claimed per-account path `"/v1/accounts/ACC1/orders"` for account `ACC1`. -/
theorem C9_counterexample :
    place_equity_market ⟨"ACC1", 100, false, false, false, true⟩ "NVDA" (-3)
        (true, []) =
      (.ok (.posted "/v1/accounts/orders" ⟨"ACC1", "Market", ⟨"NVDA", "EQ"⟩, 3, "Sell"⟩),
       [Effect.apiPost "/v1/accounts/orders"
          ⟨"ACC1", "Market", ⟨"NVDA", "EQ"⟩, 3, "Sell"⟩]) ∧
    "/v1/accounts/orders" ≠ "/v1/accounts/" ++ "ACC1" ++ "/orders" :=
  ⟨rfl, by decide⟩

/-! ### C10 — quantity and instruction derivation -/

/-- C10: for every quantity that passes the risk check, the built payload
carries `quantity = |q|` and derives `instruction` solely from the sign of
`q` (`"Buy"` iff `q > 0`, else `"Sell"`); quantity 0 is not rejected by the
size check (with the kill switch off and a non-negative cap the offline
path admits it) and yields instruction `"Sell"` with quantity 0. -/
theorem C10_theorem (cfg : Config) (symbol : String) (qty : Int)
    (bc : Bool × List String) (hok : (risk_ok cfg symbol qty bc).1 = true) :
    (order_payload cfg symbol qty).quantity = qty.natAbs ∧
    (order_payload cfg symbol qty).instruction =
      (if 0 < qty then "Buy" else "Sell") ∧
    (cfg.KILL_SWITCH = false → cfg.OFFLINE_MODE = true →
      0 ≤ cfg.MAX_POS_SIZE →
      risk_ok cfg symbol 0 bc = (true, []) ∧
      (order_payload cfg symbol 0).instruction = "Sell" ∧
      (order_payload cfg symbol 0).quantity = 0) := by
  refine ⟨rfl, rfl, ?_⟩
  intro hkill hoff hmax
  refine ⟨?_, rfl, rfl⟩
  exact risk_ok_offline cfg symbol 0 bc hoff hkill (by simpa using hmax)

/-- C10: witness — quantity −7 produces instruction `"Sell"` with quantity
7, and quantity 0 is admitted and produces a Sell of 0. -/
theorem C10_witness :
    (order_payload ⟨"A1", 100, false, false, true, true⟩ "AAPL" (-7)).quantity =
      (7 : Nat) ∧
    (order_payload ⟨"A1", 100, false, false, true, true⟩ "AAPL" (-7)).instruction =
      "Sell" ∧
    risk_ok ⟨"A1", 100, false, false, true, true⟩ "AAPL" 0 (true, []) =
      (true, []) :=
  ⟨( C10_theorem ⟨"A1", 100, false, false, true, true⟩ "AAPL" (-7) (true, [])
      (by decide)).1,
   by
     have h := ( C10_theorem ⟨"A1", 100, false, false, true, true⟩ "AAPL" (-7)
       (true, []) (by decide)).2.1
     simpa using h,
   (( C10_theorem ⟨"A1", 100, false, false, true, true⟩ "AAPL" 0 (true, [])
      (by decide)).2.2 rfl rfl (by decide)).1⟩
